import Mathlib

/-!
Verification of the Replicate provider-adapter layer
(`src/lib/replicate-service.ts`) of the finetuned-image-gen repository.

The TypeScript class `ReplicateService` is shallowly embedded as pure Lean
functions.  The remote provider (the `replicate` SDK client), together with
the ambient effects the code reads (`Date.now()`, `Math.random()` suffix), is
modelled by a `Provider` record of response functions; a provider call that
throws is modelled by that function returning `Except.error msg` where `msg`
is the message of the thrown `Error`.  Each service method is split into a
`...Body` function (the `try` block, returning `Except String result`) and a
total wrapper applying the `catch` handler, mirroring the source structure.
Every operation additionally returns the list of provider calls it attempted
(`List ProviderCall`), which instruments the network activity so that the
"no network call is attempted" properties are expressible.

JavaScript-specific semantics (truthiness of `""`/`0`/`null`/`undefined` in
`||` and `&&`, `String(...)` coercion, `Array.isArray` dispatch) are modelled
by the dedicated `js...` helper functions below, each annotated with the
construct it embeds.
-/

namespace Replicate

/-- Model of JS `text.startsWith(pat)` restricted to `List Char` data:
`leadsWith pat text` is true when `pat` occurs at the head of `text`. -/
def leadsWith : List Char → List Char → Bool
  | [], _ => true
  | _ :: _, [] => false
  | a :: as, b :: bs => if a = b then leadsWith as bs else false

/-- Model of JS `text.includes(pat)` on `List Char` data: true when `pat`
occurs contiguously anywhere inside `text`. -/
def strIncludesData : List Char → List Char → Bool
  | [], pat => pat.isEmpty
  | c :: rest, pat => leadsWith pat (c :: rest) || strIncludesData rest pat

/-- JS `s.includes(pat)`. -/
def jsIncludes (s pat : String) : Bool :=
  strIncludesData s.data pat.data

/-- JS `s.startsWith(pat)`. -/
def jsStartsWith (s pat : String) : Bool :=
  leadsWith pat.data s.data

/-- JS `s.toLowerCase()` (ASCII-faithful model, mapping each character). -/
def jsToLower (s : String) : String :=
  String.mk (s.data.map Char.toLower)

/-- JS `x || d` for an optional number where `undefined` and `0` are falsy. -/
def jsOrNat (o : Option Nat) (d : Nat) : Nat :=
  match o with
  | none => d
  | some n => if n = 0 then d else n

/-- JS `x || d` for an optional float where `undefined` and `0` are falsy;
floats are modelled as exact rationals. -/
def jsOrRat (o : Option ℚ) (d : ℚ) : ℚ :=
  match o with
  | none => d
  | some q => if q = 0 then d else q

/-- JS `x || d` for an optional string where `undefined` and `""` are falsy. -/
def jsOrStr (o : Option String) (d : String) : String :=
  match o with
  | none => d
  | some s => if s = "" then d else s

/-- JS `s || d` for a string already coerced by `String(...)`: only `""` is
falsy. -/
def strOrD (s d : String) : String :=
  if s = "" then d else s

/-- JS `String(x)` on a nullable string, where the `null` case renders as the
string `"null"` (the provider SDK uses `null`, not `undefined`, for absent
error fields). -/
def jsStringOfNullable (o : Option String) : String :=
  match o with
  | none => "null"
  | some s => s

/-- JS template interpolation of a possibly-`undefined` string
(an absent value renders as `"undefined"`). -/
def jsTemplateOpt (o : Option String) : String :=
  match o with
  | none => "undefined"
  | some s => s

/-- Helper for `modelName.toLowerCase().replace(/\s+/g, "-")`: each maximal
run of whitespace becomes a single hyphen.  The boolean records whether the
previous character was whitespace. -/
def squashWsAux : Bool → List Char → List Char
  | _, [] => []
  | prevWs, c :: rest =>
    if c.isWhitespace then
      (if prevWs then [] else ['-']) ++ squashWsAux true rest
    else
      c :: squashWsAux false rest

/-- `modelName.toLowerCase().replace(/\s+/g, "-")` from
`createDestinationModel`. -/
def slugify (s : String) : String :=
  String.mk (squashWsAux false (jsToLower s).data)

/-- `replicateModelId.split(":").pop()`: the segment after the last colon
(the whole string when no colon occurs). -/
def versionOf (s : String) : String :=
  String.mk ((s.data.reverse.takeWhile (fun c => ¬ c = ':')).reverse)

/-! ## Data model (the interfaces of `replicate-service.ts`) -/

/-- `urls` field of a Replicate training. -/
structure TrainingUrls where
  get : String
  cancel : String
  deriving Repr, DecidableEq

/-- `ReplicateTrainingParams` (the unused `trainingImages` passthrough field
is omitted; the source comment marks it "not used"). -/
structure ReplicateTrainingParams where
  modelName : String
  triggerWord : String
  zipUrl : String
  baseModel : Option String := none
  steps : Option Nat := none
  learningRate : Option ℚ := none
  loraRank : Option Nat := none
  batchSize : Option Nat := none
  resolution : Option String := none
  deriving Repr, DecidableEq

/-- Training input submitted to the FLUX trainer (`trainingInput` object of
the non-SDXL branch of `startTraining`). -/
structure FluxInput where
  input_images : String
  trigger_word : String
  steps : Nat
  lora_rank : Nat
  optimizer : String
  batch_size : Nat
  resolution : String
  autocaption : Bool
  learning_rate : ℚ
  caption_dropout_rate : ℚ
  cache_latents_to_disk : Bool
  wandb_project : String
  wandb_save_interval : Nat
  wandb_sample_interval : Nat
  gradient_checkpointing : Bool
  deriving Repr, DecidableEq

/-- Training input submitted to the SDXL trainer (`trainingInput` object of
the SDXL branch of `startTraining`). -/
structure SdxlInput where
  input_images : String
  trigger_word : String
  max_train_steps : Nat
  lora_rank : Nat
  optimizer : String
  batch_size : Nat
  resolution : String
  autocaption : Bool
  learning_rate : ℚ
  lr_scheduler : String
  lr_warmup_steps : Nat
  seed : Nat
  cache_latents_to_disk : Bool
  deriving Repr, DecidableEq

/-- The `trainingInput` value, tagged by which trainer profile built it. -/
inductive TrainingInput where
  | flux (i : FluxInput)
  | sdxl (i : SdxlInput)
  deriving Repr, DecidableEq

/-- Provider-side training object as returned by `client.trainings.create`
and `client.trainings.get`.  The `any`-typed `input` passthrough is modelled
as an opaque optional string. -/
structure ProviderTraining where
  id : String
  status : String
  urls : Option TrainingUrls := none
  error : Option String := none
  logs : Option String := none
  output : Option String := none
  input : Option String := none
  deriving Repr, DecidableEq

/-- `ReplicateTrainingResponse`.  The source casts the provider status string
unchecked (`training.status as ...`), so `status` is kept as a string. -/
structure ReplicateTrainingResponse where
  id : String
  status : String
  urls : Option TrainingUrls := none
  error : Option String := none
  output : Option String := none
  logs : Option String := none
  input : Option String := none
  destinationModelId : Option String := none
  deriving Repr, DecidableEq

/-- Options passed to `client.models.create`. -/
structure ModelCreateOptions where
  description : String
  visibility : String
  hardware : String
  deriving Repr, DecidableEq

/-- Result shape of `createDestinationModel`. -/
structure CreateModelResult where
  success : Bool
  modelId : Option String := none
  error : Option String := none
  deriving Repr, DecidableEq

/-- Input object passed to `client.predictions.create` in
`generateWithTrainedModel`. -/
structure PredictionInput where
  version : String
  prompt : String
  width : Nat
  height : Nat
  num_inference_steps : Nat
  seed : Option Nat
  guidance_scale : ℚ
  num_outputs : Nat
  output_format : String
  output_quality : Nat
  deriving Repr, DecidableEq

/-- Input object passed to `client.run` in `generateWithLoRA`. -/
structure RunInput where
  prompt : String
  lora_url : String
  lora_scale : ℚ
  width : Nat
  height : Nat
  num_inference_steps : Nat
  seed : Option Nat
  go_fast : Bool
  guidance_scale : ℚ
  num_outputs : Nat
  output_format : String
  output_quality : Nat
  deriving Repr, DecidableEq

/-- The loosely-typed `output` field of a provider prediction: absent/null,
a single string, or an array of strings. -/
inductive JsOutput where
  | null
  | str (s : String)
  | arr (xs : List String)
  deriving Repr, DecidableEq

/-- JS truthiness of the `output` field (`null`/`undefined` and `""` are
falsy; every array — even an empty one — is truthy). -/
def jsTruthyOutput : JsOutput → Bool
  | .null => false
  | .str s => ¬ s = ""
  | .arr _ => true

/-- `Array.isArray(output) ? output[0] : output`.  Indexing an empty array
yields the JS value `undefined`, rendered here as the string `"undefined"`
(`String(undefined)`); the `null` case renders as `"null"` (`String(null)`).
Both degenerate cases are unreachable behind the truthiness guard for
nonempty outputs. -/
def jsFirstOutput : JsOutput → String
  | .null => "null"
  | .str s => s
  | .arr [] => "undefined"
  | .arr (x :: _) => x

/-- A provider prediction object (fields the source reads).  `id` and
`status` are optional because the source defends against their absence. -/
structure Prediction where
  id : Option String := none
  status : Option String := none
  output : JsOutput := .null
  error : Option String := none
  deriving Repr, DecidableEq

/-- Status of a `ReplicateGenerationResponse`; only these three literals are
ever constructed by the source. -/
inductive GenStatus where
  | completed
  | failed
  | processing
  deriving Repr, DecidableEq

/-- One element of the `images` array of a generation response. -/
structure GeneratedImage where
  url : String
  width : Nat
  height : Nat
  deriving Repr, DecidableEq

/-- `ReplicateGenerationResponse`. -/
structure ReplicateGenerationResponse where
  id : String
  status : GenStatus
  images : Option (List GeneratedImage) := none
  error : Option String := none
  deriving Repr, DecidableEq

/-- One entry of `getAvailableTrainers()`. -/
structure TrainerInfo where
  id : String
  name : String
  description : String
  version : String
  baseModel : String
  estimatedTime : String
  cost : String
  deriving Repr, DecidableEq

/-- A record of one provider (network) call attempted by the adapter,
carrying the exact arguments submitted. -/
inductive ProviderCall where
  | modelsCreate (owner modelId : String) (opts : ModelCreateOptions)
  | trainingsCreate (owner name version destination : String)
      (input : TrainingInput)
  | trainingsGet (id : String)
  | trainingsCancel (id : String)
  | predictionsCreate (input : PredictionInput)
  | wait (p : Prediction)
  | run (model : String) (input : RunInput)
  deriving Repr, DecidableEq

/-- The provider environment: the behaviour of every remote call the adapter
can make, plus the ambient `Date.now()` value and the random suffix drawn in
`createDestinationModel`.  `Except.error msg` models the call throwing an
`Error` with message `msg`; `wait`/`run` returning `Except.ok none` models
the SDK resolving to `null`/`undefined`. -/
structure Provider where
  modelsCreate : String → String → ModelCreateOptions → Except String Unit
  trainingsCreate : String → String → String → String → TrainingInput →
    Except String ProviderTraining
  trainingsGet : String → Except String ProviderTraining
  trainingsCancel : String → Except String Unit
  predictionsCreate : PredictionInput → Except String Prediction
  wait : Prediction → Except String (Option Prediction)
  run : String → RunInput → Except String (Option Prediction)
  now : Nat
  randomSuffix : String

/-! ## Operations -/

/-- The derived destination model identifier:
`flux-lora-${name.toLowerCase().replace(/\s+/g, "-")}-${Date.now()}-${suffix}`. -/
def destModelIdOf (env : Provider) (modelName : String) : String :=
  "flux-lora-" ++ slugify modelName ++ "-" ++ toString env.now ++ "-" ++
    env.randomSuffix

/-- `createDestinationModel(modelName, description?)`.  The only statement of
its `try` block that can throw is the `client.models.create` call, so the
`catch` handler coincides with the error branch of that call. -/
def createDestinationModelRun (env : Provider) (modelName : String)
    (description : Option String) : CreateModelResult × List ProviderCall :=
  let modelId := destModelIdOf env modelName
  let opts : ModelCreateOptions :=
    { description :=
        jsOrStr description ("Fine-tuned FLUX LoRA model for " ++ modelName),
      visibility := "private",
      hardware := "gpu-t4" }
  match env.modelsCreate "micahp" modelId opts with
  | .ok _ =>
    ({ success := true, modelId := some ("micahp/" ++ modelId), error := none },
     [ProviderCall.modelsCreate "micahp" modelId opts])
  | .error e =>
    ({ success := false, modelId := none, error := some e },
     [ProviderCall.modelsCreate "micahp" modelId opts])

/-- Trainer selection of `startTraining` step 2: the trainer identity triple
(owner, name, version) and the `trainingInput` object, keyed on the requested
base model (`params.baseModel || "black-forest-labs/FLUX.1-dev"`). -/
def selectTrainer (p : ReplicateTrainingParams) :
    String × String × String × TrainingInput :=
  let baseModel := jsOrStr p.baseModel "black-forest-labs/FLUX.1-dev"
  if baseModel = "stabilityai/stable-diffusion-xl-base-1.0" then
    ("ostris", "sdxl-lora-trainer", "latest",
      TrainingInput.sdxl
        { input_images := p.zipUrl,
          trigger_word := p.triggerWord,
          max_train_steps := jsOrNat p.steps 1000,
          lora_rank := jsOrNat p.loraRank 16,
          optimizer := "adamw8bit",
          batch_size := jsOrNat p.batchSize 1,
          resolution := jsOrStr p.resolution "1024",
          autocaption := true,
          learning_rate := jsOrRat p.learningRate 0.0004,
          lr_scheduler := "constant",
          lr_warmup_steps := 0,
          seed := 42,
          cache_latents_to_disk := false })
  else
    ("ostris", "flux-dev-lora-trainer",
      "c6e78d2501e8088876e99ef21e4460d0dc121af7a4b786b9a4c2d75c620e300d",
      TrainingInput.flux
        { input_images := p.zipUrl,
          trigger_word := p.triggerWord,
          steps := jsOrNat p.steps 1000,
          lora_rank := jsOrNat p.loraRank 16,
          optimizer := "adamw8bit",
          batch_size := jsOrNat p.batchSize 1,
          resolution := jsOrStr p.resolution "512,768,1024",
          autocaption := true,
          learning_rate := jsOrRat p.learningRate 0.0004,
          caption_dropout_rate := 0.05,
          cache_latents_to_disk := false,
          wandb_project := "flux_train_replicate",
          wandb_save_interval := 100,
          wandb_sample_interval := 100,
          gradient_checkpointing := false })

/-- The `try` block of `startTraining`.  A thrown `Error` is an
`Except.error` carrying its message. -/
def startTrainingBody (env : Provider) (p : ReplicateTrainingParams) :
    Except String ReplicateTrainingResponse × List ProviderCall :=
  if p.zipUrl = "" then
    (.error ("ZIP URL is required for Replicate training. " ++
      "Please create a ZIP file of training images first."), [])
  else if jsStartsWith p.zipUrl "http" = false ∧
      jsStartsWith p.zipUrl "/api/" = false then
    (.error ("Invalid ZIP URL format: " ++ p.zipUrl ++
      ". Must be a valid HTTP URL or API endpoint."), [])
  else
    let mres := createDestinationModelRun env p.modelName none
    if mres.1.success = false then
      (.error ("Failed to create destination model: " ++
        jsTemplateOpt mres.1.error), mres.2)
    else
      let dest := (mres.1.modelId).getD ""
      let sel := selectTrainer p
      match env.trainingsCreate sel.1 sel.2.1 sel.2.2.1 dest sel.2.2.2 with
      | .ok t =>
        (.ok { id := t.id, status := t.status, urls := t.urls,
               destinationModelId := mres.1.modelId },
         mres.2 ++
           [ProviderCall.trainingsCreate sel.1 sel.2.1 sel.2.2.1 dest
             sel.2.2.2])
      | .error e =>
        (.error e,
         mres.2 ++
           [ProviderCall.trainingsCreate sel.1 sel.2.1 sel.2.2.1 dest
             sel.2.2.2])

/-- `startTraining(params)`: the `try` body plus its `catch` handler, which
returns a `failed` response with a synthesised id and the error message. -/
def startTraining (env : Provider) (p : ReplicateTrainingParams) :
    ReplicateTrainingResponse × List ProviderCall :=
  match startTrainingBody env p with
  | (.ok r, cs) => (r, cs)
  | (.error e, cs) =>
    ({ id := "error_" ++ toString env.now, status := "failed",
       error := some e }, cs)

/-- The `try` block of `getTrainingStatus`. -/
def getTrainingStatusBody (env : Provider) (trainingId : String) :
    Except String ReplicateTrainingResponse × List ProviderCall :=
  match env.trainingsGet trainingId with
  | .ok t =>
    (.ok { id := t.id, status := t.status, urls := t.urls,
           output := t.output, logs := t.logs, error := t.error,
           input := t.input },
     [ProviderCall.trainingsGet trainingId])
  | .error e => (.error e, [ProviderCall.trainingsGet trainingId])

/-- `getTrainingStatus(trainingId)` with its `catch` handler. -/
def getTrainingStatus (env : Provider) (trainingId : String) :
    ReplicateTrainingResponse × List ProviderCall :=
  match getTrainingStatusBody env trainingId with
  | (.ok r, cs) => (r, cs)
  | (.error e, cs) =>
    ({ id := trainingId, status := "failed", error := some e }, cs)

/-- `cancelTraining(trainingId)`: `true` on success, exceptions swallowed as
`false`. -/
def cancelTraining (env : Provider) (trainingId : String) :
    Bool × List ProviderCall :=
  match env.trainingsCancel trainingId with
  | .ok _ => (true, [ProviderCall.trainingsCancel trainingId])
  | .error _ => (false, [ProviderCall.trainingsCancel trainingId])

/-- Parameters of `generateWithTrainedModel`. -/
structure TrainedGenParams where
  prompt : String
  replicateModelId : String
  triggerWord : Option String := none
  width : Option Nat := none
  height : Option Nat := none
  steps : Option Nat := none
  aspectRatio : Option String := none
  seed : Option Nat := none
  deriving Repr, DecidableEq

/-- Parameters of `generateWithLoRA`. -/
structure LoraGenParams where
  prompt : String
  loraPath : String
  loraScale : Option ℚ := none
  triggerWord : Option String := none
  width : Option Nat := none
  height : Option Nat := none
  steps : Option Nat := none
  aspectRatio : Option String := none
  seed : Option Nat := none
  deriving Repr, DecidableEq

/-- Prompt composition shared by both generation operations: prepend the
trigger word and `", "` when the trigger word is truthy and not already a
case-insensitive substring of the prompt. -/
def enhancePrompt (triggerWord : Option String) (prompt : String) : String :=
  match triggerWord with
  | none => prompt
  | some tw =>
    if ¬ tw = "" ∧ jsIncludes (jsToLower prompt) (jsToLower tw) = false then
      tw ++ ", " ++ prompt
    else
      prompt

/-- `getDimensions(aspectRatio?)`: the fixed aspect-ratio lookup table
(`"1:1"` shares the `default` branch in the source switch). -/
def getDimensions (aspectRatio : Option String) : Nat × Nat :=
  match aspectRatio with
  | some "16:9" => (1344, 768)
  | some "9:16" => (768, 1344)
  | some "3:4" => (896, 1152)
  | some "4:3" => (1152, 896)
  | _ => (1024, 1024)

/-- Width/height resolution shared by both generation operations:
`params.width || dimensions.width` and `params.height || dimensions.height`
(JS `||`, so an explicit `0` falls back to the derived value). -/
def resolveDims (width height : Option Nat) (aspectRatio : Option String) :
    Nat × Nat :=
  let dims := getDimensions aspectRatio
  (jsOrNat width dims.1, jsOrNat height dims.2)

/-- The model-reference validation of `generateWithTrainedModel`: the guard
`!id || !id.includes("/") || !id.includes(":")` throws, so the reference is
valid when it is nonempty and contains both a slash and a colon. -/
def trainedIdValid (s : String) : Bool :=
  if s = "" then false
  else if jsIncludes s "/" = false then false
  else if jsIncludes s ":" = false then false
  else true

/-- The input object submitted by `generateWithTrainedModel` to
`client.predictions.create`. -/
def trainedPredictionInput (gp : TrainedGenParams) : PredictionInput :=
  let dims := resolveDims gp.width gp.height gp.aspectRatio
  { version := versionOf gp.replicateModelId,
    prompt := enhancePrompt gp.triggerWord gp.prompt,
    width := dims.1,
    height := dims.2,
    num_inference_steps := jsOrNat gp.steps 28,
    seed := gp.seed,
    guidance_scale := 3.5,
    num_outputs := 1,
    output_format := "webp",
    output_quality := 90 }

/-- Response normalisation of `generateWithTrainedModel` applied to the
awaited prediction (`none` models a `null`/`undefined` SDK response). -/
def mapTrained (now : Nat) (ocp : Option Prediction) (w h : Nat) :
    ReplicateGenerationResponse :=
  match ocp with
  | none =>
    { id := "replicate_null_" ++ toString now, status := .failed,
      error := some "Replicate returned null response" }
  | some cp =>
    if cp.status = some "succeeded" ∧ jsTruthyOutput cp.output = true then
      { id := jsOrStr cp.id ("success_" ++ toString now),
        status := .completed,
        images := some [{ url := jsFirstOutput cp.output,
                          width := w, height := h }] }
    else if cp.status = some "failed" then
      { id := jsOrStr cp.id ("failed_" ++ toString now), status := .failed,
        error := some (strOrD (jsStringOfNullable cp.error)
          "Replicate trained model generation failed") }
    else if cp.status = some "processing" ∨ cp.status = some "starting" then
      { id := jsOrStr cp.id ("processing_" ++ toString now),
        status := .processing }
    else
      { id := jsOrStr cp.id ("unknown_" ++ toString now), status := .failed,
        error := some ("Unexpected response status: " ++
          jsOrStr cp.status "undefined") }

/-- The `try` block of `generateWithTrainedModel`. -/
def generateWithTrainedModelBody (env : Provider) (gp : TrainedGenParams) :
    Except String ReplicateGenerationResponse × List ProviderCall :=
  if trainedIdValid gp.replicateModelId = false then
    (.error ("Invalid Replicate model ID format: " ++ gp.replicateModelId ++
      ". Expected format: owner/model:version"), [])
  else if versionOf gp.replicateModelId = "" then
    (.error ("Could not extract version from replicateModelId: " ++
      gp.replicateModelId), [])
  else
    match env.predictionsCreate (trainedPredictionInput gp) with
    | .error e =>
      (.error e, [ProviderCall.predictionsCreate (trainedPredictionInput gp)])
    | .ok pr =>
      match env.wait pr with
      | .error e =>
        (.error e,
         [ProviderCall.predictionsCreate (trainedPredictionInput gp),
          ProviderCall.wait pr])
      | .ok ocp =>
        let dims := resolveDims gp.width gp.height gp.aspectRatio
        (.ok (mapTrained env.now ocp dims.1 dims.2),
         [ProviderCall.predictionsCreate (trainedPredictionInput gp),
          ProviderCall.wait pr])

/-- `generateWithTrainedModel(params)` with its `catch` handler. -/
def generateWithTrainedModel (env : Provider) (gp : TrainedGenParams) :
    ReplicateGenerationResponse × List ProviderCall :=
  match generateWithTrainedModelBody env gp with
  | (.ok r, cs) => (r, cs)
  | (.error e, cs) =>
    ({ id := "replicate_trained_err_" ++ toString env.now, status := .failed,
       error := some e }, cs)

/-- LoRA path formatting of `generateWithLoRA`: keep the path when it already
starts with the fixed hosting domain, else prefix the domain. -/
def formatLoraPath (loraPath : String) : String :=
  if jsStartsWith loraPath "https://huggingface.co/" then loraPath
  else "https://huggingface.co/" ++ loraPath

/-- The input object submitted by `generateWithLoRA` to `client.run`. -/
def loraRunInput (lp : LoraGenParams) : RunInput :=
  let dims := resolveDims lp.width lp.height lp.aspectRatio
  { prompt := enhancePrompt lp.triggerWord lp.prompt,
    lora_url := formatLoraPath lp.loraPath,
    lora_scale := jsOrRat lp.loraScale 1.0,
    width := dims.1,
    height := dims.2,
    num_inference_steps := jsOrNat lp.steps 28,
    seed := lp.seed,
    go_fast := true,
    guidance_scale := 3.5,
    num_outputs := 1,
    output_format := "webp",
    output_quality := 90 }

/-- Response normalisation of `generateWithLoRA` applied to a non-null
prediction: `succeeded` with truthy output maps to `completed` with one
image; `failed` maps to `failed` with `prediction.error || default`; every
other status falls through to `processing`.  `String(prediction.id)` renders
an absent id as `"undefined"`. -/
def mapLora (pred : Prediction) (w h : Nat) : ReplicateGenerationResponse :=
  if pred.status = some "succeeded" ∧ jsTruthyOutput pred.output = true then
    { id := jsTemplateOpt pred.id, status := .completed,
      images := some [{ url := jsFirstOutput pred.output,
                        width := w, height := h }] }
  else if pred.status = some "failed" then
    { id := jsTemplateOpt pred.id, status := .failed,
      error := some (jsOrStr pred.error "Replicate generation failed") }
  else
    { id := jsTemplateOpt pred.id, status := .processing }

/-- The `try` block of `generateWithLoRA`.  When `client.run` resolves to
`null`, the first property access on the result throws a `TypeError`, caught
by the handler; its message is modelled without the quote marks JS puts
around the property name. -/
def generateWithLoRABody (env : Provider) (lp : LoraGenParams) :
    Except String ReplicateGenerationResponse × List ProviderCall :=
  match env.run "black-forest-labs/flux-dev-lora" (loraRunInput lp) with
  | .error e =>
    (.error e,
     [ProviderCall.run "black-forest-labs/flux-dev-lora" (loraRunInput lp)])
  | .ok none =>
    (.error "Cannot read properties of null (reading id)",
     [ProviderCall.run "black-forest-labs/flux-dev-lora" (loraRunInput lp)])
  | .ok (some pred) =>
    let dims := resolveDims lp.width lp.height lp.aspectRatio
    (.ok (mapLora pred dims.1 dims.2),
     [ProviderCall.run "black-forest-labs/flux-dev-lora" (loraRunInput lp)])

/-- `generateWithLoRA(params)` with its `catch` handler. -/
def generateWithLoRA (env : Provider) (lp : LoraGenParams) :
    ReplicateGenerationResponse × List ProviderCall :=
  match generateWithLoRABody env lp with
  | (.ok r, cs) => (r, cs)
  | (.error e, cs) =>
    ({ id := "replicate_err_" ++ toString env.now, status := .failed,
       error := some e }, cs)

/-- `getAvailableTrainers()`: a fixed constant list. -/
def getAvailableTrainers : List TrainerInfo :=
  [{ id := "ostris/flux-dev-lora-trainer",
     name := "FLUX Dev LoRA Trainer",
     description := "Train LoRA models for FLUX.1-dev using ai-toolkit",
     version :=
       "c6e78d2501e8088876e99ef21e4460d0dc121af7a4b786b9a4c2d75c620e300d",
     baseModel := "black-forest-labs/FLUX.1-dev",
     estimatedTime := "10-30 minutes",
     cost := "$0.001525 per second" },
   { id := "ostris/sdxl-lora-trainer",
     name := "SDXL LoRA Trainer",
     description := "Train LoRA models for Stable Diffusion XL",
     version := "latest",
     baseModel := "stabilityai/stable-diffusion-xl-base-1.0",
     estimatedTime := "15-45 minutes",
     cost := "$0.001525 per second" }]

/-! ## Concrete fixtures used to instantiate theorems with hypotheses -/

/-- A prediction as freshly created (`client.predictions.create`). -/
def prStub : Prediction :=
  { id := some "p0", status := some "starting" }

/-- A successfully completed prediction with a two-element output array. -/
def prSucc : Prediction :=
  { id := some "pred-1", status := some "succeeded",
    output := .arr ["http://img/0.webp", "http://img/1.webp"] }

/-- A failed prediction carrying a provider error message. -/
def prFail : Prediction :=
  { id := some "pred-2", status := some "failed",
    error := some "NSFW content detected" }

/-- A training object as returned by the provider on submission. -/
def trainingOk : ProviderTraining :=
  { id := "train-1", status := "starting",
    urls := some { get := "g", cancel := "c" } }

/-- A provider for which every call succeeds; `wait`/`run` resolve to the
given prediction (or to `null` when `none`). -/
def envOf (ocp : Option Prediction) : Provider :=
  { modelsCreate := fun _ _ _ => .ok (),
    trainingsCreate := fun _ _ _ _ _ => .ok trainingOk,
    trainingsGet := fun _ => .ok trainingOk,
    trainingsCancel := fun _ => .ok (),
    predictionsCreate := fun _ => .ok prStub,
    wait := fun _ => .ok ocp,
    run := fun _ _ => .ok ocp,
    now := 0, randomSuffix := "abc123" }

/-- A provider for which every call throws. -/
def envErr : Provider :=
  { modelsCreate := fun _ _ _ => .error "boom",
    trainingsCreate := fun _ _ _ _ _ => .error "boom",
    trainingsGet := fun _ => .error "boom",
    trainingsCancel := fun _ => .error "boom",
    predictionsCreate := fun _ => .error "boom",
    wait := fun _ => .error "boom",
    run := fun _ _ => .error "boom",
    now := 0, randomSuffix := "abc123" }

/-! ## Helper lemmas -/

lemma strIncludesData_nil (text : List Char) :
    strIncludesData text [] = true := by
  cases text <;> simp [strIncludesData, leadsWith]

lemma leadsWith_append (x y : List Char) : leadsWith x (x ++ y) = true := by
  induction x with
  | nil => simp [leadsWith]
  | cons a as ih => simp [leadsWith, ih]

lemma strIncludesData_of_leadsWith (text pat : List Char)
    (h : leadsWith pat text = true) : strIncludesData text pat = true := by
  cases text with
  | nil =>
    cases pat with
    | nil => simp [strIncludesData]
    | cons b bs => simp [leadsWith] at h
  | cons c rest => simp [strIncludesData, h]

lemma jsIncludes_empty_pat (s : String) : jsIncludes s "" = true := by
  unfold jsIncludes
  have h : ("" : String).data = [] := rfl
  rw [h]
  exact strIncludesData_nil _

/-- The lower-cased left factor of a concatenation is always a
case-insensitive substring of the concatenation. -/
lemma jsIncludes_toLower_append (s t : String) :
    jsIncludes (jsToLower (s ++ t)) (jsToLower s) = true := by
  have hdata : (jsToLower (s ++ t)).data =
      (jsToLower s).data ++ t.data.map Char.toLower := by
    simp [jsToLower, String.data_append]
  unfold jsIncludes
  rw [hdata]
  exact strIncludesData_of_leadsWith _ _ (leadsWith_append _ _)

/-! ## Claims -/

/-- C6: prompt composition prepends the trigger word followed by `", "`
exactly when the trigger word is not already a case-insensitive substring of
the prompt (an empty trigger word is a substring of everything, collapsing
the truthiness guard), is a no-op otherwise, is idempotent under repeated
application, and maps trigger `"sks"` with prompt `"a photo of a dog"` to
`"sks, a photo of a dog"`. -/
theorem claim6_prompt_composition :
    (∀ tw p : String,
      enhancePrompt (some tw) p =
        if jsIncludes (jsToLower p) (jsToLower tw) = true then p
        else tw ++ ", " ++ p) ∧
    (∀ p : String, enhancePrompt none p = p) ∧
    (∀ (tw : Option String) (p : String),
      enhancePrompt tw (enhancePrompt tw p) = enhancePrompt tw p) ∧
    enhancePrompt (some "sks") "a photo of a dog" = "sks, a photo of a dog" := by
  have hmain : ∀ tw p : String,
      enhancePrompt (some tw) p =
        if jsIncludes (jsToLower p) (jsToLower tw) = true then p
        else tw ++ ", " ++ p := by
    intro tw p
    by_cases htw : tw = ""
    · subst htw
      have h1 : jsToLower "" = "" := rfl
      simp [enhancePrompt, h1, jsIncludes_empty_pat]
    · by_cases hc : jsIncludes (jsToLower p) (jsToLower tw) = true

      · simp [enhancePrompt, htw, hc]
      · simp [enhancePrompt, htw, hc, eq_false_of_ne_true hc]
  refine ⟨hmain, fun p => rfl, ?_, by decide⟩
  intro tw p
  cases tw with
  | none => rfl
  | some s =>
    by_cases hs : s = ""
    · subst hs
      have h1 : jsToLower "" = "" := rfl
      simp [enhancePrompt, h1, jsIncludes_empty_pat]
    · by_cases hc : jsIncludes (jsToLower p) (jsToLower s) = true
      · rw [hmain s p, if_pos hc, hmain s p, if_pos hc]
      · rw [hmain s p, if_neg hc, hmain s (s ++ ", " ++ p)]
        rw [if_pos]
        rw [String.append_assoc]
        exact jsIncludes_toLower_append s (", " ++ p)

/-- C1: none of the seven exposed operations raises: for every input and
every provider behaviour, the `try` body either succeeds and its value is
returned, or the error is reported through the result value (a `failed`
status with the message in `error`, `success := false`, or `false` for
`cancelTraining`); `getAvailableTrainers` is the fixed constant list. -/
theorem claim1_ops_non_throwing (env : Provider)
    (p : ReplicateTrainingParams) (tid cid mname : String)
    (d : Option String) (gp : TrainedGenParams) (lp : LoraGenParams) :
    ((∃ r, (startTrainingBody env p).1 = .ok r ∧
        (startTraining env p).1 = r) ∨
      ((startTraining env p).1.status = "failed" ∧
        ∃ e, (startTrainingBody env p).1 = .error e ∧
          (startTraining env p).1.error = some e)) ∧
    ((∃ r, (getTrainingStatusBody env tid).1 = .ok r ∧
        (getTrainingStatus env tid).1 = r) ∨
      ((getTrainingStatus env tid).1.status = "failed" ∧
        ∃ e, (getTrainingStatusBody env tid).1 = .error e ∧
          (getTrainingStatus env tid).1.error = some e)) ∧
    (((cancelTraining env cid).1 = true ∧
        env.trainingsCancel cid = .ok ()) ∨
      ((cancelTraining env cid).1 = false ∧
        ∃ e, env.trainingsCancel cid = .error e)) ∧
    ((∃ r, (generateWithTrainedModelBody env gp).1 = .ok r ∧
        (generateWithTrainedModel env gp).1 = r) ∨
      ((generateWithTrainedModel env gp).1.status = .failed ∧
        ∃ e, (generateWithTrainedModelBody env gp).1 = .error e ∧
          (generateWithTrainedModel env gp).1.error = some e)) ∧
    ((∃ r, (generateWithLoRABody env lp).1 = .ok r ∧
        (generateWithLoRA env lp).1 = r) ∨
      ((generateWithLoRA env lp).1.status = .failed ∧
        ∃ e, (generateWithLoRABody env lp).1 = .error e ∧
          (generateWithLoRA env lp).1.error = some e)) ∧
    (((createDestinationModelRun env mname d).1.success = true ∧
        (createDestinationModelRun env mname d).1.error = none) ∨
      ((createDestinationModelRun env mname d).1.success = false ∧
        ∃ e, (createDestinationModelRun env mname d).1.error = some e)) ∧
    getAvailableTrainers =
      [{ id := "ostris/flux-dev-lora-trainer",
         name := "FLUX Dev LoRA Trainer",
         description := "Train LoRA models for FLUX.1-dev using ai-toolkit",
         version :=
           "c6e78d2501e8088876e99ef21e4460d0dc121af7a4b786b9a4c2d75c620e300d",
         baseModel := "black-forest-labs/FLUX.1-dev",
         estimatedTime := "10-30 minutes",
         cost := "$0.001525 per second" },
       { id := "ostris/sdxl-lora-trainer",
         name := "SDXL LoRA Trainer",
         description := "Train LoRA models for Stable Diffusion XL",
         version := "latest",
         baseModel := "stabilityai/stable-diffusion-xl-base-1.0",
         estimatedTime := "15-45 minutes",
         cost := "$0.001525 per second" }] := by
  refine ⟨?_, ?_, ?_, ?_, ?_, ?_, rfl⟩
  · rcases hb : startTrainingBody env p with ⟨res, cs⟩
    cases res with
    | ok r =>
      exact Or.inl ⟨r, by simp [hb], by simp [startTraining, hb]⟩
    | error e =>
      exact Or.inr ⟨by simp [startTraining, hb],
        e, by simp [hb], by simp [startTraining, hb]⟩
  · rcases hb : getTrainingStatusBody env tid with ⟨res, cs⟩
    cases res with
    | ok r =>
      exact Or.inl ⟨r, by simp [hb], by simp [getTrainingStatus, hb]⟩
    | error e =>
      exact Or.inr ⟨by simp [getTrainingStatus, hb],
        e, by simp [hb], by simp [getTrainingStatus, hb]⟩
  · cases hc : env.trainingsCancel cid with
    | ok u =>
      cases u
      exact Or.inl ⟨by simp [cancelTraining, hc], rfl⟩
    | error e =>
      exact Or.inr ⟨by simp [cancelTraining, hc], e, rfl⟩
  · rcases hb : generateWithTrainedModelBody env gp with ⟨res, cs⟩
    cases res with
    | ok r =>
      exact Or.inl ⟨r, by simp [hb], by simp [generateWithTrainedModel, hb]⟩
    | error e =>
      exact Or.inr ⟨by simp [generateWithTrainedModel, hb],
        e, by simp [hb], by simp [generateWithTrainedModel, hb]⟩
  · rcases hb : generateWithLoRABody env lp with ⟨res, cs⟩
    cases res with
    | ok r =>
      exact Or.inl ⟨r, by simp [hb], by simp [generateWithLoRA, hb]⟩
    | error e =>
      exact Or.inr ⟨by simp [generateWithLoRA, hb],
        e, by simp [hb], by simp [generateWithLoRA, hb]⟩
  · unfold createDestinationModelRun
    cases hm : env.modelsCreate "micahp" (destModelIdOf env mname)
        { description :=
            jsOrStr d ("Fine-tuned FLUX LoRA model for " ++ mname),
          visibility := "private", hardware := "gpu-t4" } with
    | ok u => exact Or.inl (by simp [hm])
    | error e => exact Or.inr (by simp [hm])

/-- C3: for every training request whose `zipUrl` is empty or starts with
neither `http` nor the internal `/api/` prefix, `startTraining` returns a
`failed` result carrying the corresponding input-validation message, and the
provider call trace is empty (no model creation, no training submission). -/
theorem claim3_zip_url_validation (env : Provider)
    (p : ReplicateTrainingParams)
    (h : p.zipUrl = "" ∨
      (jsStartsWith p.zipUrl "http" = false ∧
        jsStartsWith p.zipUrl "/api/" = false)) :
    (startTraining env p).1.status = "failed" ∧
    (startTraining env p).1.error = some
      (if p.zipUrl = "" then
        "ZIP URL is required for Replicate training. " ++
          "Please create a ZIP file of training images first."
      else
        "Invalid ZIP URL format: " ++ p.zipUrl ++
          ". Must be a valid HTTP URL or API endpoint.") ∧
    (startTraining env p).2 = [] := by
  rcases h with hz | ⟨h1, h2⟩
  · simp [startTraining, startTrainingBody, hz]
  · by_cases hz : p.zipUrl = ""
    · simp [startTraining, startTrainingBody, hz]
    · simp [startTraining, startTrainingBody, hz, h1, h2]

/-- A training request with a malformed (non-http, non-`/api/`) archive
URL. -/
def pBadZip : ReplicateTrainingParams :=
  { modelName := "m", triggerWord := "t", zipUrl := "ftp://x" }

/-- Witness for C3 at the concrete request `pBadZip`. -/
theorem claim3_zip_url_validation_witness :
    (startTraining (envOf none) pBadZip).1.status = "failed" ∧
    (startTraining (envOf none) pBadZip).1.error = some
      (if pBadZip.zipUrl = "" then
        "ZIP URL is required for Replicate training. " ++
          "Please create a ZIP file of training images first."
      else
        "Invalid ZIP URL format: " ++ pBadZip.zipUrl ++
          ". Must be a valid HTTP URL or API endpoint.") ∧
    (startTraining (envOf none) pBadZip).2 = [] :=
  claim3_zip_url_validation (envOf none) pBadZip
    (Or.inr ⟨by decide, by decide⟩)

/-- C5: for every generation request whose `replicateModelId` is empty or
lacks a slash or a colon, `generateWithTrainedModel` returns a `failed`
result carrying the format-validation message, and the provider call trace
is empty (no prediction is created). -/
theorem claim5_model_id_validation (env : Provider) (gp : TrainedGenParams)
    (h : gp.replicateModelId = "" ∨
      jsIncludes gp.replicateModelId "/" = false ∨
      jsIncludes gp.replicateModelId ":" = false) :
    (generateWithTrainedModel env gp).1.status = .failed ∧
    (generateWithTrainedModel env gp).1.error = some
      ("Invalid Replicate model ID format: " ++ gp.replicateModelId ++
        ". Expected format: owner/model:version") ∧
    (generateWithTrainedModel env gp).2 = [] := by
  have hv : trainedIdValid gp.replicateModelId = false := by
    rcases h with h | h | h
    · simp [trainedIdValid, h]
    · by_cases h0 : gp.replicateModelId = "" <;>
        simp [trainedIdValid, h, h0]
    · by_cases h0 : gp.replicateModelId = "" <;>
        by_cases h1 : jsIncludes gp.replicateModelId "/" = false <;>
          simp [trainedIdValid, h, h0, h1]
  simp [generateWithTrainedModel, generateWithTrainedModelBody, hv]

/-- A generation request whose model reference has no version qualifier. -/
def gpNoColon : TrainedGenParams :=
  { prompt := "a portrait", replicateModelId := "micahp/flux-lora-xyz" }

/-- Witness for C5 at the concrete request `gpNoColon`. -/
theorem claim5_model_id_validation_witness :
    (generateWithTrainedModel (envOf none) gpNoColon).1.status = .failed ∧
    (generateWithTrainedModel (envOf none) gpNoColon).1.error = some
      ("Invalid Replicate model ID format: " ++ gpNoColon.replicateModelId ++
        ". Expected format: owner/model:version") ∧
    (generateWithTrainedModel (envOf none) gpNoColon).2 = [] :=
  claim5_model_id_validation (envOf none) gpNoColon
    (Or.inr (Or.inr (by decide)))

/-- C8: `generateWithLoRA` always submits exactly one provider `run` call,
whose `lora_url` is the caller path unchanged when it already starts with the
fixed hosting domain, and the domain prefix concatenated with the path
otherwise. -/
theorem claim8_lora_url (env : Provider) (lp : LoraGenParams) :
    (generateWithLoRA env lp).2 =
      [ProviderCall.run "black-forest-labs/flux-dev-lora"
        (loraRunInput lp)] ∧
    (loraRunInput lp).lora_url =
      (if jsStartsWith lp.loraPath "https://huggingface.co/" = true then
        lp.loraPath
      else "https://huggingface.co/" ++ lp.loraPath) := by
  constructor
  · cases h : env.run "black-forest-labs/flux-dev-lora" (loraRunInput lp) with
    | ok o => cases o <;> simp [generateWithLoRA, generateWithLoRABody, h]
    | error e => simp [generateWithLoRA, generateWithLoRABody, h]
  · rfl

/-- C9: `cancelTraining` returns `true` when the provider cancellation call
succeeds and `false` when it throws. -/
theorem claim9_cancel_training (env : Provider) (tid : String) :
    (env.trainingsCancel tid = .ok () →
      (cancelTraining env tid).1 = true) ∧
    (∀ e, env.trainingsCancel tid = .error e →
      (cancelTraining env tid).1 = false) := by
  constructor
  · intro h
    simp [cancelTraining, h]
  · intro e h
    simp [cancelTraining, h]

/-- Witness for C9: a provider that accepts the cancellation and one that
rejects it. -/
theorem claim9_cancel_training_witness :
    (cancelTraining (envOf none) "t1").1 = true ∧
    (cancelTraining envErr "t1").1 = false :=
  ⟨(claim9_cancel_training (envOf none) "t1").1 rfl,
   (claim9_cancel_training envErr "t1").2 "boom" rfl⟩

/-- A well-formed trained-model generation request. -/
def gpOk : TrainedGenParams :=
  { prompt := "a photo of a dog",
    replicateModelId := "micahp/flux-lora-xyz:v1",
    triggerWord := some "sks" }

/-- A well-formed LoRA generation request. -/
def lpOk : LoraGenParams :=
  { prompt := "a photo of a dog", loraPath := "me/lora" }

/-- C2: both generation operations normalise the awaited provider response
as specified: `succeeded` with a nonempty sequence output maps to
`completed` with exactly one image whose url is the first element; `failed`
maps to `failed` preserving a (nonempty) provider error message; the
in-progress statuses map to `processing` with no images; and a `null`
response yields a `failed` result with a synthetic error instead of an
exception.  The final three conjuncts tie the `mapTrained`/`mapLora`
normalisers to the operations themselves: whenever the provider resolves,
the operation returns exactly the normalised response. -/
theorem claim2_response_mapping (now w h : Nat) (cp : Prediction)
    (u : String) (us : List String) (m : String) (env : Provider)
    (gp : TrainedGenParams) (lp : LoraGenParams) (pr : Prediction)
    (ocp : Option Prediction) :
    (cp.status = some "succeeded" → cp.output = .arr (u :: us) →
      (mapTrained now (some cp) w h).status = .completed ∧
      (mapTrained now (some cp) w h).images = some [⟨u, w, h⟩]) ∧
    (cp.status = some "failed" → cp.error = some m → ¬ m = "" →
      (mapTrained now (some cp) w h).status = .failed ∧
      (mapTrained now (some cp) w h).error = some m) ∧
    ((cp.status = some "processing" ∨ cp.status = some "starting") →
      (mapTrained now (some cp) w h).status = .processing ∧
      (mapTrained now (some cp) w h).images = none) ∧
    ((mapTrained now none w h).status = .failed ∧
      (mapTrained now none w h).error =
        some "Replicate returned null response") ∧
    (cp.status = some "succeeded" → cp.output = .arr (u :: us) →
      (mapLora cp w h).status = .completed ∧
      (mapLora cp w h).images = some [⟨u, w, h⟩]) ∧
    (cp.status = some "failed" → cp.error = some m → ¬ m = "" →
      (mapLora cp w h).status = .failed ∧
      (mapLora cp w h).error = some m) ∧
    ((cp.status = some "processing" ∨ cp.status = some "starting") →
      (mapLora cp w h).status = .processing ∧
      (mapLora cp w h).images = none) ∧
    (trainedIdValid gp.replicateModelId = true →
      ¬ versionOf gp.replicateModelId = "" →
      env.predictionsCreate (trainedPredictionInput gp) = .ok pr →
      env.wait pr = .ok ocp →
      (generateWithTrainedModel env gp).1 =
        mapTrained env.now ocp
          (resolveDims gp.width gp.height gp.aspectRatio).1
          (resolveDims gp.width gp.height gp.aspectRatio).2) ∧
    (env.run "black-forest-labs/flux-dev-lora" (loraRunInput lp) =
        .ok (some cp) →
      (generateWithLoRA env lp).1 =
        mapLora cp (resolveDims lp.width lp.height lp.aspectRatio).1
          (resolveDims lp.width lp.height lp.aspectRatio).2) ∧
    (env.run "black-forest-labs/flux-dev-lora" (loraRunInput lp) =
        .ok none →
      (generateWithLoRA env lp).1.status = .failed ∧
      (generateWithLoRA env lp).1.error =
        some "Cannot read properties of null (reading id)") := by
  refine ⟨?_, ?_, ?_, ?_, ?_, ?_, ?_, ?_, ?_, ?_⟩
  · intro h1 h2
    simp [mapTrained, h1, h2, jsTruthyOutput, jsFirstOutput]
  · intro h1 h2 h3
    simp [mapTrained, h1, h2, h3, jsStringOfNullable, strOrD]
  · intro h
    rcases h with h | h <;> simp [mapTrained, h]
  · simp [mapTrained]
  · intro h1 h2
    simp [mapLora, h1, h2, jsTruthyOutput, jsFirstOutput]
  · intro h1 h2 h3
    simp [mapLora, h1, h2, h3, jsOrStr]
  · intro h
    rcases h with h | h <;> simp [mapLora, h]
  · intro hv hver hc hw
    simp [generateWithTrainedModel, generateWithTrainedModelBody, hv, hver,
      hc, hw]
  · intro hr
    simp [generateWithLoRA, generateWithLoRABody, hr]
  · intro hr
    simp [generateWithLoRA, generateWithLoRABody, hr]

/-- Witness for C2, instantiating every mapping case at concrete
predictions (`prSucc`, `prFail`, `prStub`) and the linking conjuncts at
concrete providers. -/
theorem claim2_response_mapping_witness :
    ((mapTrained 0 (some prSucc) 1024 768).status = .completed ∧
      (mapTrained 0 (some prSucc) 1024 768).images =
        some [⟨"http://img/0.webp", 1024, 768⟩]) ∧
    ((mapTrained 0 (some prFail) 1024 768).status = .failed ∧
      (mapTrained 0 (some prFail) 1024 768).error =
        some "NSFW content detected") ∧
    ((mapTrained 0 (some prStub) 1024 768).status = .processing ∧
      (mapTrained 0 (some prStub) 1024 768).images = none) ∧
    ((mapTrained 0 none 1024 768).status = .failed ∧
      (mapTrained 0 none 1024 768).error =
        some "Replicate returned null response") ∧
    ((mapLora prSucc 1024 768).status = .completed ∧
      (mapLora prSucc 1024 768).images =
        some [⟨"http://img/0.webp", 1024, 768⟩]) ∧
    ((mapLora prFail 1024 768).status = .failed ∧
      (mapLora prFail 1024 768).error = some "NSFW content detected") ∧
    ((mapLora prStub 1024 768).status = .processing ∧
      (mapLora prStub 1024 768).images = none) ∧
    ((generateWithTrainedModel (envOf (some prSucc)) gpOk).1 =
      mapTrained (envOf (some prSucc)).now (some prSucc)
        (resolveDims gpOk.width gpOk.height gpOk.aspectRatio).1
        (resolveDims gpOk.width gpOk.height gpOk.aspectRatio).2) ∧
    ((generateWithLoRA (envOf (some prSucc)) lpOk).1 =
      mapLora prSucc
        (resolveDims lpOk.width lpOk.height lpOk.aspectRatio).1
        (resolveDims lpOk.width lpOk.height lpOk.aspectRatio).2) ∧
    ((generateWithLoRA (envOf none) lpOk).1.status = .failed ∧
      (generateWithLoRA (envOf none) lpOk).1.error =
        some "Cannot read properties of null (reading id)") :=
  ⟨(claim2_response_mapping 0 1024 768 prSucc "http://img/0.webp"
      ["http://img/1.webp"] "m" envErr gpOk lpOk prStub none).1 rfl rfl,
   (claim2_response_mapping 0 1024 768 prFail "u" [] "NSFW content detected"
      envErr gpOk lpOk prStub none).2.1 rfl rfl (by decide),
   (claim2_response_mapping 0 1024 768 prStub "u" [] "m" envErr gpOk lpOk
      prStub none).2.2.1 (Or.inr rfl),
   (claim2_response_mapping 0 1024 768 prStub "u" [] "m" envErr gpOk lpOk
      prStub none).2.2.2.1,
   (claim2_response_mapping 0 1024 768 prSucc "http://img/0.webp"
      ["http://img/1.webp"] "m" envErr gpOk lpOk prStub none).2.2.2.2.1
      rfl rfl,
   (claim2_response_mapping 0 1024 768 prFail "u" [] "NSFW content detected"
      envErr gpOk lpOk prStub none).2.2.2.2.2.1 rfl rfl (by decide),
   (claim2_response_mapping 0 1024 768 prStub "u" [] "m" envErr gpOk lpOk
      prStub none).2.2.2.2.2.2.1 (Or.inr rfl),
   (claim2_response_mapping 0 1024 768 prStub "u" [] "m"
      (envOf (some prSucc)) gpOk lpOk prStub (some prSucc)).2.2.2.2.2.2.2.1
      (by decide) (by decide) rfl rfl,
   (claim2_response_mapping 0 1024 768 prSucc "u" [] "m"
      (envOf (some prSucc)) gpOk lpOk prStub (some prSucc)).2.2.2.2.2.2.2.2.1
      rfl,
   (claim2_response_mapping 0 1024 768 prStub "u" [] "m" (envOf none) gpOk
      lpOk prStub none).2.2.2.2.2.2.2.2.2 rfl⟩

lemma jsOrNat_none (d : Nat) : jsOrNat none d = d := rfl

lemma jsOrRat_none (d : ℚ) : jsOrRat none d = d := rfl

lemma jsOrStr_none (d : String) : jsOrStr none d = d := rfl

/-- The default FLUX training input for a request with no hyperparameters:
steps 1000, LoRA rank 16, batch size 1, resolution `"512,768,1024"`,
learning rate 0.0004. -/
def fluxDefaultInput (zipUrl triggerWord : String) : FluxInput :=
  { input_images := zipUrl, trigger_word := triggerWord,
    steps := 1000, lora_rank := 16, optimizer := "adamw8bit",
    batch_size := 1, resolution := "512,768,1024", autocaption := true,
    learning_rate := 0.0004, caption_dropout_rate := 0.05,
    cache_latents_to_disk := false, wandb_project := "flux_train_replicate",
    wandb_save_interval := 100, wandb_sample_interval := 100,
    gradient_checkpointing := false }

/-- C4: when the base model is absent or differs from the SDXL identifier
and no hyperparameters are supplied, `startTraining` (with a valid archive
URL and a successful destination-model creation) submits exactly one
training job to the FLUX trainer `ostris/flux-dev-lora-trainer` at its
pinned version, with the default input (steps 1000, lora_rank 16, batch
size 1, resolution `"512,768,1024"`, learning rate 0.0004). -/
theorem claim4_flux_trainer_defaults (env : Provider)
    (p : ReplicateTrainingParams)
    (hbase : p.baseModel = none ∨ ∃ b, p.baseModel = some b ∧
      ¬ b = "stabilityai/stable-diffusion-xl-base-1.0")
    (hsteps : p.steps = none) (hrank : p.loraRank = none)
    (hbatch : p.batchSize = none) (hres : p.resolution = none)
    (hlr : p.learningRate = none)
    (hzip : jsStartsWith p.zipUrl "http" = true)
    (hmc : ∀ o m opts, env.modelsCreate o m opts = .ok ()) :
    (startTraining env p).2 =
      [ProviderCall.modelsCreate "micahp" (destModelIdOf env p.modelName)
        { description := "Fine-tuned FLUX LoRA model for " ++ p.modelName,
          visibility := "private", hardware := "gpu-t4" },
       ProviderCall.trainingsCreate "ostris" "flux-dev-lora-trainer"
         "c6e78d2501e8088876e99ef21e4460d0dc121af7a4b786b9a4c2d75c620e300d"
         ("micahp/" ++ destModelIdOf env p.modelName)
         (TrainingInput.flux (fluxDefaultInput p.zipUrl p.triggerWord))] := by
  have hz : ¬ p.zipUrl = "" := by
    intro h
    rw [h] at hzip
    exact absurd hzip (by decide)
  have hsel : selectTrainer p =
      ("ostris", "flux-dev-lora-trainer",
        "c6e78d2501e8088876e99ef21e4460d0dc121af7a4b786b9a4c2d75c620e300d",
        TrainingInput.flux (fluxDefaultInput p.zipUrl p.triggerWord)) := by
    have hb : ¬ jsOrStr p.baseModel "black-forest-labs/FLUX.1-dev" =
        "stabilityai/stable-diffusion-xl-base-1.0" := by
      rcases hbase with h | ⟨b, hb, hbne⟩
      · simp [jsOrStr, h]
      · by_cases hbe : b = "" <;> simp [jsOrStr, hb, hbe, hbne]
    simp [selectTrainer, hb, fluxDefaultInput, hsteps, hrank, hbatch, hres,
      hlr, jsOrNat_none, jsOrRat_none, jsOrStr_none]
  have h2 : ¬(jsStartsWith p.zipUrl "http" = false ∧
      jsStartsWith p.zipUrl "/api/" = false) := by
    simp [hzip]
  unfold startTraining startTrainingBody
  rw [if_neg hz, if_neg h2]
  simp only [createDestinationModelRun, hmc, hsel, jsOrStr_none]
  cases htc : env.trainingsCreate "ostris" "flux-dev-lora-trainer"
      "c6e78d2501e8088876e99ef21e4460d0dc121af7a4b786b9a4c2d75c620e300d"
      ("micahp/" ++ destModelIdOf env p.modelName)
      (TrainingInput.flux (fluxDefaultInput p.zipUrl p.triggerWord)) with
  | ok t => simp [htc]
  | error e => simp [htc]

/-- A training request with a valid archive URL, no base model and no
hyperparameters. -/
def pTrainOk : ReplicateTrainingParams :=
  { modelName := "My Model", triggerWord := "sks",
    zipUrl := "https://x/y.zip" }

/-- Witness for C4 at the concrete request `pTrainOk` against an
all-accepting provider. -/
theorem claim4_flux_trainer_defaults_witness :
    (startTraining (envOf none) pTrainOk).2 =
      [ProviderCall.modelsCreate "micahp"
        (destModelIdOf (envOf none) pTrainOk.modelName)
        { description :=
            "Fine-tuned FLUX LoRA model for " ++ pTrainOk.modelName,
          visibility := "private", hardware := "gpu-t4" },
       ProviderCall.trainingsCreate "ostris" "flux-dev-lora-trainer"
         "c6e78d2501e8088876e99ef21e4460d0dc121af7a4b786b9a4c2d75c620e300d"
         ("micahp/" ++ destModelIdOf (envOf none) pTrainOk.modelName)
         (TrainingInput.flux
           (fluxDefaultInput pTrainOk.zipUrl pTrainOk.triggerWord))] :=
  claim4_flux_trainer_defaults (envOf none) pTrainOk (Or.inl rfl)
    rfl rfl rfl rfl rfl (by decide) (fun _ _ _ => rfl)

/-- A generation request that explicitly passes `width: 0`. -/
def gpZeroWidth : TrainedGenParams :=
  { prompt := "p", replicateModelId := "o/m:v", width := some 0 }

/-- Counterexample to C7 as stated: the request `gpZeroWidth` supplies the
explicit width `0`, yet the submitted prediction width and the width of the
returned image are the derived default `1024` rather than `0` — JS `||`
treats `0` as absent, so explicit values do not always override. -/
theorem claim7_counterexample :
    gpZeroWidth.width = some 0 ∧
    (trainedPredictionInput gpZeroWidth).width = 1024 ∧
    (generateWithTrainedModel (envOf (some prSucc)) gpZeroWidth).1.images =
      some [⟨"http://img/0.webp", 1024, 1024⟩] := by
  refine ⟨rfl, rfl, by decide⟩

/-- C7 (amended): dimension resolution returns exactly the fixed table
(1:1→1024×1024, 16:9→1344×768, 9:16→768×1344, 3:4→896×1152, 4:3→1152×896,
default 1024×1024 for unrecognized/absent ratios), and an explicit
**nonzero** width/height overrides the derived value, while an absent or
zero (JS-falsy) value falls back to it.  `resolveDims` is by definition the
resolution applied by both generation operations
(`trainedPredictionInput`/`loraRunInput`). -/
theorem claim7_dimensions_amended :
    getDimensions (some "1:1") = (1024, 1024) ∧
    getDimensions (some "16:9") = (1344, 768) ∧
    getDimensions (some "9:16") = (768, 1344) ∧
    getDimensions (some "3:4") = (896, 1152) ∧
    getDimensions (some "4:3") = (1152, 896) ∧
    (∀ ar : Option String, ¬ ar = some "16:9" → ¬ ar = some "9:16" →
      ¬ ar = some "3:4" → ¬ ar = some "4:3" →
      getDimensions ar = (1024, 1024)) ∧
    (∀ (n : Nat) (ho : Option Nat) (ar : Option String), ¬ n = 0 →
      resolveDims (some n) ho ar = (n, jsOrNat ho (getDimensions ar).2) ∧
      resolveDims ho (some n) ar = (jsOrNat ho (getDimensions ar).1, n)) ∧
    (∀ (ho : Option Nat) (ar : Option String),
      (resolveDims none ho ar).1 = (getDimensions ar).1 ∧
      (resolveDims (some 0) ho ar).1 = (getDimensions ar).1 ∧
      (resolveDims ho none ar).2 = (getDimensions ar).2 ∧
      (resolveDims ho (some 0) ar).2 = (getDimensions ar).2) := by
  refine ⟨rfl, rfl, rfl, rfl, rfl, ?_, ?_, ?_⟩
  · intro ar h1 h2 h3 h4
    rcases ar with _ | s
    · rfl
    · unfold getDimensions
      split <;> simp_all
  · intro n ho ar hn
    exact ⟨by simp [resolveDims, jsOrNat, hn], by simp [resolveDims, jsOrNat, hn]⟩
  · intro ho ar
    exact ⟨rfl, rfl, rfl, rfl⟩

/-- Witness for C7 (amended), applied at an unrecognized ratio and a nonzero
explicit width. -/
theorem claim7_dimensions_amended_witness :
    getDimensions (some "2:1") = (1024, 1024) ∧
    resolveDims (some 512) none (some "16:9") =
      (512, jsOrNat none (getDimensions (some "16:9")).2) :=
  ⟨(claim7_dimensions_amended.2.2.2.2.2.1 (some "2:1")
      (by decide) (by decide) (by decide) (by decide)),
   (claim7_dimensions_amended.2.2.2.2.2.2.1 512 none (some "16:9")
      (by decide)).1⟩

/-- A `completed` normalised trained-model response always carries exactly
one image bearing the resolved width/height arguments. -/
lemma mapTrained_completed_images (now : Nat) (ocp : Option Prediction)
    (w h : Nat) (hc : (mapTrained now ocp w h).status = .completed) :
    ∃ u, (mapTrained now ocp w h).images = some [⟨u, w, h⟩] := by
  cases ocp with
  | none => simp [mapTrained] at hc
  | some cp =>
    by_cases h1 : cp.status = some "succeeded" ∧
        jsTruthyOutput cp.output = true
    · exact ⟨jsFirstOutput cp.output, by simp [mapTrained, h1]⟩
    · by_cases h2 : cp.status = some "failed"
      · simp [mapTrained, h1, h2] at hc
      · by_cases h3 : cp.status = some "processing" ∨
            cp.status = some "starting"
        · simp [mapTrained, h1, h2, h3] at hc
        · simp [mapTrained, h1, h2, h3] at hc

/-- A `completed` normalised LoRA response always carries exactly one image
bearing the resolved width/height arguments. -/
lemma mapLora_completed_images (pred : Prediction) (w h : Nat)
    (hc : (mapLora pred w h).status = .completed) :
    ∃ u, (mapLora pred w h).images = some [⟨u, w, h⟩] := by
  by_cases h1 : pred.status = some "succeeded" ∧
      jsTruthyOutput pred.output = true
  · exact ⟨jsFirstOutput pred.output, by simp [mapLora, h1]⟩
  · by_cases h2 : pred.status = some "failed"
    · simp [mapLora, h1, h2] at hc
    · simp [mapLora, h1, h2] at hc

/-- Every result of `generateWithTrainedModel` is either `failed` or the
normalisation of some awaited response at the request-resolved
dimensions. -/
lemma generateWithTrainedModel_shape (env : Provider)
    (gp : TrainedGenParams) :
    (generateWithTrainedModel env gp).1.status = .failed ∨
    ∃ ocp, (generateWithTrainedModel env gp).1 =
      mapTrained env.now ocp
        (resolveDims gp.width gp.height gp.aspectRatio).1
        (resolveDims gp.width gp.height gp.aspectRatio).2 := by
  by_cases hv : trainedIdValid gp.replicateModelId = false
  · exact Or.inl (by
      simp [generateWithTrainedModel, generateWithTrainedModelBody, hv])
  · by_cases hver : versionOf gp.replicateModelId = ""
    · exact Or.inl (by
        simp [generateWithTrainedModel, generateWithTrainedModelBody, hv,
          hver])
    · cases hc : env.predictionsCreate (trainedPredictionInput gp) with
      | error e =>
        exact Or.inl (by
          simp [generateWithTrainedModel, generateWithTrainedModelBody, hv,
            hver, hc])
      | ok pr =>
        cases hw : env.wait pr with
        | error e =>
          exact Or.inl (by
            simp [generateWithTrainedModel, generateWithTrainedModelBody,
              hv, hver, hc, hw])
        | ok ocp =>
          exact Or.inr ⟨ocp, by
            simp [generateWithTrainedModel, generateWithTrainedModelBody,
              hv, hver, hc, hw]⟩

/-- Every result of `generateWithLoRA` is either `failed` or the
normalisation of some provider prediction at the request-resolved
dimensions. -/
lemma generateWithLoRA_shape (env : Provider) (lp : LoraGenParams) :
    (generateWithLoRA env lp).1.status = .failed ∨
    ∃ pred, (generateWithLoRA env lp).1 =
      mapLora pred (resolveDims lp.width lp.height lp.aspectRatio).1
        (resolveDims lp.width lp.height lp.aspectRatio).2 := by
  cases hr : env.run "black-forest-labs/flux-dev-lora" (loraRunInput lp) with
  | error e =>
    exact Or.inl (by simp [generateWithLoRA, generateWithLoRABody, hr])
  | ok o =>
    cases o with
    | none =>
      exact Or.inl (by simp [generateWithLoRA, generateWithLoRABody, hr])
    | some pred =>
      exact Or.inr ⟨pred, by
        simp [generateWithLoRA, generateWithLoRABody, hr]⟩

/-- C10: for every provider behaviour and every request, a `completed`
generation result of either operation contains exactly one image, whose
width and height are the dimensions resolved from the request (explicit
nonzero values or the aspect-ratio table), independent of anything the
provider reports. -/
theorem claim10_completed_images (env : Provider) (gp : TrainedGenParams)
    (lp : LoraGenParams) :
    ((generateWithTrainedModel env gp).1.status = .completed →
      ∃ u, (generateWithTrainedModel env gp).1.images =
        some [⟨u, (resolveDims gp.width gp.height gp.aspectRatio).1,
               (resolveDims gp.width gp.height gp.aspectRatio).2⟩]) ∧
    ((generateWithLoRA env lp).1.status = .completed →
      ∃ u, (generateWithLoRA env lp).1.images =
        some [⟨u, (resolveDims lp.width lp.height lp.aspectRatio).1,
               (resolveDims lp.width lp.height lp.aspectRatio).2⟩]) := by
  constructor
  · intro hc
    rcases generateWithTrainedModel_shape env gp with hf | ⟨ocp, heq⟩
    · rw [hc] at hf
      exact absurd hf (by decide)
    · rw [heq] at hc ⊢
      exact mapTrained_completed_images env.now ocp _ _ hc
  · intro hc
    rcases generateWithLoRA_shape env lp with hf | ⟨pred, heq⟩
    · rw [hc] at hf
      exact absurd hf (by decide)
    · rw [heq] at hc ⊢
      exact mapLora_completed_images pred _ _ hc

/-- Witness for C10 at a provider that completes both operations with a
two-element output array. -/
theorem claim10_completed_images_witness :
    (∃ u, (generateWithTrainedModel (envOf (some prSucc)) gpOk).1.images =
      some [⟨u, (resolveDims gpOk.width gpOk.height gpOk.aspectRatio).1,
             (resolveDims gpOk.width gpOk.height gpOk.aspectRatio).2⟩]) ∧
    (∃ u, (generateWithLoRA (envOf (some prSucc)) lpOk).1.images =
      some [⟨u, (resolveDims lpOk.width lpOk.height lpOk.aspectRatio).1,
             (resolveDims lpOk.width lpOk.height lpOk.aspectRatio).2⟩]) :=
  ⟨(claim10_completed_images (envOf (some prSucc)) gpOk lpOk).1 (by decide),
   (claim10_completed_images (envOf (some prSucc)) gpOk lpOk).2 (by decide)⟩

end Replicate
